import Mathlib

/-!
Verification of the service-worker caching layer (`docs/service-worker.js`).

The worker intercepts fetch events, classifies each request into a caching
strategy by a fixed sequence of conditionals, executes the strategy against
two named cache stores (`static-<version>`, `runtime-<version>`), and trims
each store to a cap in FIFO order.

The embedding below models:
  * strings and the JavaScript `String.prototype.includes` / `endsWith`
    operations used by the worker (`strIncludes`, `strEndsWith`);
  * responses as records of status, status text, content type and body;
  * requests as records of the fields the worker inspects
    (origin, pathname, search, mode, destination, Sec-Fetch-Dest header);
  * cache stores as insertion-ordered association lists keyed by URL;
  * the network as an explicit `Option Response` parameter (`none` models a
    failed or timed-out fetch), so each strategy executor is a pure function
    of the cache state and the network outcome.
-/

set_option autoImplicit false

namespace ServiceWorker

/-! ## JavaScript string operations -/

/-- Does the character list `s` start with `p`?  Models the prefix test used
to implement `String.prototype.includes`. -/
def listStartsWith : List Char → List Char → Bool
  | _, [] => true
  | [], _ :: _ => false
  | c :: cs, p :: ps => c == p && listStartsWith cs ps

/-- Does the character list `s` contain `p` as a contiguous run?  Models
JavaScript `s.includes(p)`. -/
def listIncludes : List Char → List Char → Bool
  | [], p => p.isEmpty
  | c :: cs, p => listStartsWith (c :: cs) p || listIncludes cs p

/-- Does the character list `s` end with `p`?  Models JavaScript
`s.endsWith(p)`. -/
def listEndsWith (s p : List Char) : Bool :=
  listStartsWith s.reverse p.reverse

/-- JavaScript `s.includes(p)` on strings. -/
def strIncludes (s p : String) : Bool :=
  listIncludes s.toList p.toList

/-- JavaScript `s.endsWith(p)` on strings. -/
def strEndsWith (s p : String) : Bool :=
  listEndsWith s.toList p.toList

/-! ## Responses and requests -/

/-- A captured response: status, status text, content type header, body.
`new Response(body, init)` corresponds to a record literal; a string body
with no explicit header gets content type `text/plain;charset=UTF-8`. -/
structure Response where
  status : Nat
  statusText : String
  contentType : Option String
  body : String
deriving DecidableEq

/-- JavaScript `Response.ok`: status in the range 200–299. -/
def Response.ok (r : Response) : Bool :=
  200 ≤ r.status && r.status < 300

/-- The request fields the worker inspects.  `origin`, `pathname` and
`search` are the components of `new URL(req.url)`; `secFetchDest` is
`req.headers.get(Sec-Fetch-Dest)` (`none` when the header is absent). -/
structure Request where
  origin : String
  pathname : String
  search : String
  mode : String
  destination : String
  secFetchDest : Option String
deriving DecidableEq

/-- The full URL string `req.url`, of which `pathname` is a component. -/
def Request.url (req : Request) : String :=
  req.origin ++ req.pathname ++ req.search

/-! ## Constants from the top of the worker -/

def CACHE_VERSION : String := "v1.0.7"

def STATIC_CACHE : String := "static-" ++ CACHE_VERSION

def RUNTIME_CACHE : String := "runtime-" ++ CACHE_VERSION

def MAX_RUNTIME_ITEMS : Nat := 50

def MAX_STATIC_ITEMS : Nat := 100

def OFFLINE_URL : String := "./pwa/offline.html"

/-! ## Cache stores

A store is an insertion-ordered association list from request URL to
response; `cache.keys()` returns the keys in insertion order. -/

abbrev CacheStore := List (String × Response)

/-- The two named stores the worker writes to. -/
structure SWState where
  staticStore : CacheStore
  runtimeStore : CacheStore
deriving DecidableEq

/-- `cache.match` on a single store: the entry for `key`, if any. -/
def cacheLookup (store : CacheStore) (key : String) : Option Response :=
  match store.find? (fun e => e.1 == key) with
  | some e => some e.2
  | none => none

/-- `caches.match`: search the static store (created first), then the
runtime store. -/
def cachesMatch (st : SWState) (key : String) : Option Response :=
  match cacheLookup st.staticStore key with
  | some r => some r
  | none => cacheLookup st.runtimeStore key

/-- `cache.put`: overwrite the entry for `key` if present, else append it
(new entries are the most recently inserted). -/
def cachePut (store : CacheStore) (key : String) (res : Response) : CacheStore :=
  if store.any (fun e => e.1 == key) then
    store.map (fun e => if e.1 == key then (key, res) else e)
  else
    store ++ [(key, res)]

/-! ## limitCacheSize

`limitCacheSize(cacheName, maxItems)` lists the store keys in insertion
order and, when the count exceeds the cap, deletes
`keys.slice(0, keys.length - maxItems)` — the earliest-inserted entries.
`keysToDelete` is the slice that gets deleted; `limitCacheSize` is the
store contents remaining after those deletions. -/

def keysToDelete {α : Type} (keys : List α) (maxItems : Nat) : List α :=
  if keys.length > maxItems then keys.take (keys.length - maxItems) else []

def limitCacheSize {α : Type} (keys : List α) (maxItems : Nat) : List α :=
  if keys.length > maxItems then keys.drop (keys.length - maxItems) else keys

/-! ## Activation

The activate listener enumerates all cache names and deletes every one that
differs from both current store names. -/

/-- The set of store names the activate listener deletes, given the list of
all existing store names. -/
def activationDeleted (keys : List String) : List String :=
  keys.filter (fun k => k != STATIC_CACHE && k != RUNTIME_CACHE)

/-! ## Request classification

The fetch listener is a fixed sequence of conditionals; `classify` returns
which branch fires.  `notHandled` models the early `return` for
cross-origin requests (no `respondWith`: the browser handles the request
itself); `bypass` models `respondWith(fetch(req))`. -/

inductive Strategy where
  | notHandled
  | bypass
  | staleWhileRevalidate
  | navigation
  | cacheFirst
  | networkFirst
deriving DecidableEq

/-- The static-asset test: does the full URL string contain one of the
listed extension strings anywhere (JavaScript `url.includes(ext)`)? -/
def staticExtensions : List String :=
  [".css", ".js", ".woff", ".woff2", ".ttf", ".eot",
   ".png", ".jpg", ".jpeg", ".gif", ".svg", ".ico", ".webp"]

def isStaticAsset (req : Request) : Bool :=
  staticExtensions.any (fun ext => strIncludes req.url ext)

/-- The branch sequence of the fetch listener.  `workerOrigin` is
`self.location.origin`.  Note the JavaScript precedence in the second
condition: `a || b || c === empty && mode === cors` parses as
`a || b || (c && d)`. -/
def classify (workerOrigin : String) (req : Request) : Strategy :=
  if req.origin != workerOrigin then .notHandled
  else if strIncludes req.pathname "print" || strIncludes req.search "print" ||
      (req.secFetchDest == some "empty" && req.mode == "cors") then .bypass
  else if req.mode == "print" ||
      (req.destination == "document" && req.secFetchDest == some "document") then .bypass
  else if strIncludes req.pathname "/theming/" ||
      strIncludes req.pathname "/site_libs/" then .staleWhileRevalidate
  else if req.mode == "navigate" then .navigation
  else if isStaticAsset req then .cacheFirst
  else if strEndsWith req.pathname ".json" then .networkFirst
  else .staleWhileRevalidate

/-! ## Synthetic responses built by the worker -/

/-- `new Response('Asset not found', status 404)` from `cacheFirst`'s catch
branch (string bodies default to a text/plain content type). -/
def notFoundResponse : Response :=
  ⟨404, "", some "text/plain;charset=UTF-8", "Asset not found"⟩

/-- `new Response('\x7b\x7d', Content-Type application/json)` from
`networkFirst`'s catch branch; the default status is 200. -/
def emptyJsonResponse : Response :=
  ⟨200, "", some "application/json", "\x7b\x7d"⟩

/-- The last-resort navigation response: 503 Service Unavailable with a
plain-text body. -/
def offlineResponse : Response :=
  ⟨503, "Service Unavailable", some "text/plain", "Offline - Page not cached"⟩

/-! ## Strategy executors

Each executor takes the cache state and the outcome of `fetch(req)`
(`none` models a rejected fetch — network failure, or for navigation also
the 3000 ms timeout), and returns the value its promise resolves with
together with the updated state.  The resolved value is an
`Option Response`: `some r` is a `Response`, `none` models resolving with
`undefined` (which the fetch event treats as a failed response). -/

/-- Cache-first: serve `caches.match(req)` when present; otherwise fetch,
cache `ok` responses into the static store (then trim), and on fetch
failure return a synthetic 404.  The third component records whether a
network fetch was issued. -/
def cacheFirst (st : SWState) (req : Request) (net : Option Response) :
    Option Response × SWState × Bool :=
  match cachesMatch st req.url with
  | some cached => (some cached, st, false)
  | none =>
    match net with
    | some netRes =>
      if netRes.ok then
        (some netRes,
         { st with staticStore :=
             limitCacheSize (cachePut st.staticStore req.url netRes) MAX_STATIC_ITEMS },
         true)
      else (some netRes, st, true)
    | none => (some notFoundResponse, st, true)

/-- Network-first: return the network response (caching `ok` responses into
the runtime store, then trimming); on fetch failure fall back to
`caches.match(req)`, else to the synthetic empty-JSON response. -/
def networkFirst (st : SWState) (req : Request) (net : Option Response) :
    Option Response × SWState :=
  match net with
  | some netRes =>
    if netRes.ok then
      (some netRes,
       { st with runtimeStore :=
           limitCacheSize (cachePut st.runtimeStore req.url netRes) MAX_RUNTIME_ITEMS })
    else (some netRes, st)
  | none =>
    match cachesMatch st req.url with
    | some cached => (some cached, st)
    | none => (some emptyJsonResponse, st)

/-- Stale-while-revalidate: look up the runtime store; the fetch promise
caches `ok` responses (then trims) and on rejection resolves to the cached
value (`undefined` when there is none).  The executor returns the cached
value when present, else the fetch promise's value. -/
def staleWhileRevalidate (st : SWState) (req : Request) (net : Option Response) :
    Option Response × SWState :=
  let cached := cacheLookup st.runtimeStore req.url
  let st' :=
    match net with
    | some res =>
      if res.ok then
        { st with runtimeStore :=
            limitCacheSize (cachePut st.runtimeStore req.url res) MAX_RUNTIME_ITEMS }
      else st
    | none => st
  let fetchResult : Option Response :=
    match net with
    | some res => some res
    | none => cached
  match cached with
  | some c => (some c, st')
  | none => (fetchResult, st')

/-! ## Navigation -/

/-- Map a trailing-slash path to its explicit index document and rebuild
`urlObj.href`. -/
def normalizeNavigationUrl (req : Request) : String :=
  let p := if strEndsWith req.pathname "/" then req.pathname ++ "index.html" else req.pathname
  req.origin ++ p ++ req.search

/-- The cached copy `handleNavigation` consults:
`caches.match(normalizedUrl) || caches.match(req)`. -/
def navCached (st : SWState) (req : Request) : Option Response :=
  match cachesMatch st (normalizeNavigationUrl req) with
  | some c => some c
  | none => cachesMatch st req.url

structure NavResult where
  response : Response
  st : SWState
  usedNetwork : Bool
deriving DecidableEq

/-- The network path of `handleNavigation`: race `fetch(req)` against the
3000 ms timeout (`net = none` models losing the race or a fetch error);
cache `ok` responses into the runtime store (then trim); on failure fall
back to the cached copy, else the cached offline page, else the synthetic
503. -/
def handleNavigationNetwork (st : SWState) (req : Request) (net : Option Response) :
    NavResult :=
  match net with
  | some netRes =>
    if netRes.ok then
      ⟨netRes,
       { st with runtimeStore :=
           limitCacheSize (cachePut st.runtimeStore req.url netRes) MAX_RUNTIME_ITEMS },
       true⟩
    else ⟨netRes, st, true⟩
  | none =>
    match navCached st req with
    | some c => ⟨c, st, true⟩
    | none =>
      match cachesMatch st OFFLINE_URL with
      | some off => ⟨off, st, true⟩
      | none => ⟨offlineResponse, st, true⟩

/-- Navigation strategy: when `navigator.onLine` is false and a cached copy
exists, return it without fetching; otherwise take the network path. -/
def handleNavigation (st : SWState) (req : Request) (onLine : Bool) (net : Option Response) :
    NavResult :=
  match onLine, navCached st req with
  | false, some c => ⟨c, st, false⟩
  | _, _ => handleNavigationNetwork st req net

/-! ## The fetch listener -/

/-- One fetch event end to end.  The first component is `none` when the
listener returns without calling `respondWith` (cross-origin: the browser
forwards the request itself), and `some r` when it responds with `r`
(`r = none` models responding with a rejected promise or `undefined`).
The last component records whether the worker issued a network fetch. -/
def handleFetch (workerOrigin : String) (st : SWState) (req : Request)
    (onLine : Bool) (net : Option Response) :
    Option (Option Response) × SWState × Bool :=
  match classify workerOrigin req with
  | .notHandled => (none, st, false)
  | .bypass => (some net, st, true)
  | .staleWhileRevalidate =>
    let r := staleWhileRevalidate st req net
    (some r.1, r.2, true)
  | .navigation =>
    let r := handleNavigation st req onLine net
    (some (some r.response), r.st, r.usedNetwork)
  | .cacheFirst =>
    let r := cacheFirst st req net
    (some r.1, r.2.1, r.2.2)
  | .networkFirst =>
    let r := networkFirst st req net
    (some r.1, r.2, true)

/-! ## Properties of the string operations -/

theorem listStartsWith_append (p t l : List Char) (h : listStartsWith l p = true) :
    listStartsWith (l ++ t) p = true := by
  induction p generalizing l with
  | nil => simp [listStartsWith]
  | cons x xs ih =>
    cases l with
    | nil => simp [listStartsWith] at h
    | cons c cs =>
      simp only [listStartsWith, Bool.and_eq_true, beq_iff_eq] at h
      simp only [List.cons_append, listStartsWith, Bool.and_eq_true, beq_iff_eq]
      exact ⟨h.1, ih cs h.2⟩

theorem listIncludes_nil (s : List Char) : listIncludes s [] = true := by
  cases s <;> simp [listIncludes, listStartsWith]

theorem listIncludes_append_left (l₁ l₂ p : List Char) (h : listIncludes l₂ p = true) :
    listIncludes (l₁ ++ l₂) p = true := by
  induction l₁ with
  | nil => simpa using h
  | cons c cs ih =>
    simp only [List.cons_append, listIncludes, Bool.or_eq_true]
    exact Or.inr ih

theorem listIncludes_append_right (l₂ l₃ p : List Char) (h : listIncludes l₂ p = true) :
    listIncludes (l₂ ++ l₃) p = true := by
  induction l₂ with
  | nil =>
    cases p with
    | nil => exact listIncludes_nil l₃
    | cons x xs => simp [listIncludes] at h
  | cons c cs ih =>
    simp only [listIncludes, Bool.or_eq_true] at h
    simp only [List.cons_append, listIncludes, Bool.or_eq_true]
    rcases h with h | h
    · exact Or.inl (by simpa using listStartsWith_append p l₃ (c :: cs) h)
    · exact Or.inr (ih h)

theorem listStartsWith_decomp (p l : List Char) (h : listStartsWith l p = true) :
    ∃ t, l = p ++ t := by
  induction p generalizing l with
  | nil => exact ⟨l, rfl⟩
  | cons x xs ih =>
    cases l with
    | nil => simp [listStartsWith] at h
    | cons c cs =>
      simp only [listStartsWith, Bool.and_eq_true, beq_iff_eq] at h
      obtain ⟨t, ht⟩ := ih cs h.2
      exact ⟨t, by simp [h.1, ht]⟩

theorem listEndsWith_decomp (p l : List Char) (h : listEndsWith l p = true) :
    ∃ t, l = t ++ p := by
  obtain ⟨t, ht⟩ := listStartsWith_decomp p.reverse l.reverse h
  refine ⟨t.reverse, ?_⟩
  have h2 := congrArg List.reverse ht
  simpa using h2

theorem toList_append (a b : String) : (a ++ b).toList = a.toList ++ b.toList := by
  cases a with
  | mk da =>
    cases b with
    | mk db => rfl

/-- Anything contained in the pathname is contained in the full URL. -/
theorem strIncludes_url_of_pathname (req : Request) (p : String)
    (h : strIncludes req.pathname p = true) : strIncludes req.url p = true := by
  unfold strIncludes at h ⊢
  rw [Request.url, toList_append, toList_append]
  exact listIncludes_append_right _ _ _ (listIncludes_append_left _ _ _ h)

/-- Every URL whose pathname ends in `.json` passes the static-asset test,
because `.json` contains the listed extension `.js` as a substring. -/
theorem endsWith_json_isStaticAsset (req : Request)
    (h : strEndsWith req.pathname ".json" = true) : isStaticAsset req = true := by
  have hjs : strIncludes req.pathname ".js" = true := by
    unfold strEndsWith at h
    obtain ⟨t, ht⟩ := listEndsWith_decomp _ _ h
    unfold strIncludes
    rw [ht]
    exact listIncludes_append_left _ _ _ (by decide)
  have hurl := strIncludes_url_of_pathname req ".js" hjs
  unfold isStaticAsset
  refine List.any_eq_true.mpr ?_
  exact ⟨".js", by simp [staticExtensions], hurl⟩

/-- The `.json` branch of the fetch listener is unreachable. -/
theorem classify_ne_networkFirst (o : String) (req : Request) :
    classify o req ≠ Strategy.networkFirst := by
  intro h
  unfold classify at h
  repeat' split at h
  any_goals exact Strategy.noConfusion h
  rename_i hstatic hjson
  exact hstatic (endsWith_json_isStaticAsset req hjson)

/-- A same-origin `.json` request on which no earlier branch fires is
routed to `cacheFirst`. -/
theorem classify_json_cacheFirst (o : String) (req : Request)
    (h0 : req.origin = o)
    (h1 : (strIncludes req.pathname "print" || strIncludes req.search "print" ||
        (req.secFetchDest == some "empty" && req.mode == "cors")) = false)
    (h2 : (req.mode == "print" ||
        (req.destination == "document" && req.secFetchDest == some "document")) = false)
    (h3 : (strIncludes req.pathname "/theming/" ||
        strIncludes req.pathname "/site_libs/") = false)
    (h4 : req.mode ≠ "navigate")
    (h5 : strEndsWith req.pathname ".json" = true) :
    classify o req = Strategy.cacheFirst := by
  have hs := endsWith_json_isStaticAsset req h5
  unfold classify
  simp [h0, h1, h2, h3, h4, hs]

/-- C2: `isStaticAsset` is true exactly when the full URL string contains
one of the listed extension strings as a substring anywhere; every request
whose pathname ends in `.json` passes it (since `.json` contains `.js`),
so such requests are routed to the cache-first executor (when no earlier
branch of the listener fires) and the network-first branch is never
reached for any request. -/
theorem isStaticAsset_substring_routing :
    (∀ req : Request,
        isStaticAsset req = true ↔ ∃ ext ∈ staticExtensions, strIncludes req.url ext = true) ∧
    (∀ req : Request, strEndsWith req.pathname ".json" = true → isStaticAsset req = true) ∧
    (∀ (o : String) (req : Request), classify o req ≠ Strategy.networkFirst) ∧
    (∀ (o : String) (req : Request),
        req.origin = o →
        (strIncludes req.pathname "print" || strIncludes req.search "print" ||
          (req.secFetchDest == some "empty" && req.mode == "cors")) = false →
        (req.mode == "print" ||
          (req.destination == "document" && req.secFetchDest == some "document")) = false →
        (strIncludes req.pathname "/theming/" ||
          strIncludes req.pathname "/site_libs/") = false →
        req.mode ≠ "navigate" →
        strEndsWith req.pathname ".json" = true →
        classify o req = Strategy.cacheFirst) := by
  refine ⟨?_, endsWith_json_isStaticAsset, classify_ne_networkFirst, classify_json_cacheFirst⟩
  intro req
  simp [isStaticAsset, List.any_eq_true]

/-- C2, witness: the request for `/data/search.json` (as a no-cors fetch)
is classified cache-first, and passes the static-asset test. -/
theorem isStaticAsset_substring_routing_witness :
    classify "https://h" ⟨"https://h", "/data/search.json", "", "no-cors", "", some "empty"⟩ =
      Strategy.cacheFirst ∧
    isStaticAsset ⟨"https://h", "/data/search.json", "", "no-cors", "", some "empty"⟩ = true :=
  ⟨isStaticAsset_substring_routing.2.2.2 "https://h" _ rfl (by decide) (by decide)
      (by decide) (by decide) (by decide),
   isStaticAsset_substring_routing.2.1 _ (by decide)⟩

/-- C1: the worker's own comment says the `.json` branch handles data
requests like `search.json`, but such a request is routed to the
cache-first executor instead (the static-asset test matches `.js` inside
`.json`): with no prior cache entry and a failed network fetch the worker
responds 404 `Asset not found`, not the empty-JSON success response that
the (unreachable) network-first branch would produce. -/
theorem searchJson_failure_returns_404 :
    classify "https://h" ⟨"https://h", "/data/search.json", "", "no-cors", "", some "empty"⟩ =
      Strategy.cacheFirst ∧
    handleFetch "https://h" ⟨[], []⟩
        ⟨"https://h", "/data/search.json", "", "no-cors", "", some "empty"⟩ true none =
      (some (some notFoundResponse), ⟨[], []⟩, true) ∧
    (networkFirst ⟨[], []⟩
        ⟨"https://h", "/data/search.json", "", "no-cors", "", some "empty"⟩ none).1 =
      some emptyJsonResponse := by
  refine ⟨by decide, by decide, by decide⟩

/-- C3: trimming a store of `N` keys to cap `C` deletes exactly the
earliest-inserted `N - C` keys when `N > C`, leaving the `C` most recently
inserted, and deletes nothing when `N ≤ C`. -/
theorem limitCacheSize_fifo_trim {α : Type} (keys : List α) (cap : Nat) :
    (keys.length > cap →
        keysToDelete keys cap = keys.take (keys.length - cap) ∧
        limitCacheSize keys cap = keys.drop (keys.length - cap) ∧
        (limitCacheSize keys cap).length = cap ∧
        keysToDelete keys cap ++ limitCacheSize keys cap = keys) ∧
    (keys.length ≤ cap →
        limitCacheSize keys cap = keys ∧ keysToDelete keys cap = []) := by
  constructor
  · intro h
    refine ⟨by simp [keysToDelete, h], by simp [limitCacheSize, h], ?_, ?_⟩
    · simp only [limitCacheSize, h, if_pos, List.length_drop]
      omega
    · simp [keysToDelete, limitCacheSize, h, List.take_append_drop]
  · intro h
    have h2 : ¬ keys.length > cap := by omega
    exact ⟨by simp [limitCacheSize, h2], by simp [keysToDelete, h2]⟩

/-- C3, witness: a four-entry store trimmed to cap 2 loses its first two
keys; a two-entry store with cap 3 is untouched. -/
theorem limitCacheSize_fifo_trim_witness :
    keysToDelete ["a", "b", "c", "d"] 2 = ["a", "b"] ∧
    limitCacheSize ["a", "b", "c", "d"] 2 = ["c", "d"] ∧
    limitCacheSize ["a", "b"] 3 = ["a", "b"] :=
  ⟨((limitCacheSize_fifo_trim (α := String) ["a", "b", "c", "d"] 2).1 (by decide)).1.trans
      (by decide),
   ((limitCacheSize_fifo_trim (α := String) ["a", "b", "c", "d"] 2).1 (by decide)).2.1.trans
      (by decide),
   ((limitCacheSize_fifo_trim (α := String) ["a", "b"] 3).2 (by decide)).1⟩

/-- C4: a cross-origin request is never answered by the worker (no
`respondWith`; the browser forwards it to the network itself), no store is
written, and the worker issues no fetch. -/
theorem cross_origin_untouched (o : String) (st : SWState) (req : Request)
    (onLine : Bool) (net : Option Response) (h : req.origin ≠ o) :
    handleFetch o st req onLine net = (none, st, false) := by
  have hc : classify o req = Strategy.notHandled := by
    unfold classify
    simp [h]
  simp [handleFetch, hc]

/-- C4, witness. -/
theorem cross_origin_untouched_witness :
    handleFetch "https://h" ⟨[], []⟩ ⟨"https://evil", "/a", "", "no-cors", "", none⟩ true none =
      (none, ⟨[], []⟩, false) :=
  cross_origin_untouched "https://h" ⟨[], []⟩ _ true none (by decide)

/-- C5: when the navigation fetch fails or times out (`net = none`), the
handler returns the cached copy when present, else the cached offline
page, else the synthetic 503 whose body is `Offline - Page not cached`. -/
theorem navigation_failure_fallback_chain (st : SWState) (req : Request) (onLine : Bool) :
    (∀ c, navCached st req = some c → (handleNavigation st req onLine none).response = c) ∧
    (navCached st req = none →
      ∀ off, cachesMatch st OFFLINE_URL = some off →
        (handleNavigation st req onLine none).response = off) ∧
    (navCached st req = none → cachesMatch st OFFLINE_URL = none →
        handleNavigation st req onLine none = ⟨offlineResponse, st, true⟩) ∧
    offlineResponse.status = 503 ∧ offlineResponse.body = "Offline - Page not cached" := by
  refine ⟨?_, ?_, ?_, rfl, rfl⟩
  · intro c hc
    cases onLine <;> simp [handleNavigation, handleNavigationNetwork, hc]
  · intro hc off hoff
    cases onLine <;> simp [handleNavigation, handleNavigationNetwork, hc, hoff]
  · intro hc hoff
    cases onLine <;> simp [handleNavigation, handleNavigationNetwork, hc, hoff]

/-- C5, witness: with empty caches, a timed-out navigation yields the
synthetic 503. -/
theorem navigation_failure_fallback_chain_witness :
    handleNavigation ⟨[], []⟩ ⟨"https://h", "/p", "", "navigate", "document", none⟩ true none =
      ⟨offlineResponse, ⟨[], []⟩, true⟩ :=
  (navigation_failure_fallback_chain ⟨[], []⟩ _ true).2.2.1 (by decide) (by decide)

/-- C6: a navigation issued while offline with a cached match (under the
normalized URL or the original request URL) returns that match at once:
state unchanged and no network fetch issued. -/
theorem navigation_offline_cached_no_fetch (st : SWState) (req : Request)
    (net : Option Response) (c : Response) (h : navCached st req = some c) :
    handleNavigation st req false net = ⟨c, st, false⟩ := by
  simp [handleNavigation, h]

/-- C6, witness: an offline navigation to `/a/` served from the cached
`/a/index.html`. -/
theorem navigation_offline_cached_no_fetch_witness :
    handleNavigation ⟨[("https://h/a/index.html", ⟨200, "OK", some "text/html", "hi"⟩)], []⟩
        ⟨"https://h", "/a/", "", "navigate", "document", none⟩ false none =
      ⟨⟨200, "OK", some "text/html", "hi"⟩,
       ⟨[("https://h/a/index.html", ⟨200, "OK", some "text/html", "hi"⟩)], []⟩, false⟩ :=
  navigation_offline_cached_no_fetch _ _ none _ (by decide)

/-- C7: the activation sequence deletes exactly the stores whose names
differ from both current store names, and never the current static or
runtime store. -/
theorem activation_deletes_exactly_stale_stores :
    (∀ (keys : List String) (k : String),
        k ∈ activationDeleted keys ↔ k ∈ keys ∧ k ≠ STATIC_CACHE ∧ k ≠ RUNTIME_CACHE) ∧
    (∀ keys : List String,
        STATIC_CACHE ∉ activationDeleted keys ∧ RUNTIME_CACHE ∉ activationDeleted keys) := by
  have hmem : ∀ (keys : List String) (k : String),
      k ∈ activationDeleted keys ↔ k ∈ keys ∧ k ≠ STATIC_CACHE ∧ k ≠ RUNTIME_CACHE := by
    intro keys k
    simp [activationDeleted, List.mem_filter, and_assoc]
  refine ⟨hmem, fun keys => ⟨?_, ?_⟩⟩
  · intro h
    exact ((hmem keys _).mp h).2.1 rfl
  · intro h
    exact ((hmem keys _).mp h).2.2 rfl

/-- C7, witness: bumping the version from v1.0.6 orphans the old static
store, which activation deletes, while the current stores survive. -/
theorem activation_deletes_exactly_stale_stores_witness :
    "static-v1.0.6" ∈ activationDeleted ["static-v1.0.6", STATIC_CACHE, RUNTIME_CACHE] ∧
    STATIC_CACHE ∉ activationDeleted ["static-v1.0.6", STATIC_CACHE, RUNTIME_CACHE] :=
  ⟨(activation_deletes_exactly_stale_stores.1 _ _).mpr ⟨by decide, by decide, by decide⟩,
   (activation_deletes_exactly_stale_stores.2 _).1⟩

/-- C8, counterexample: with no runtime-cache entry and a failed network
fetch, the stale-while-revalidate executor resolves with no response at
all (`undefined`), and the fetch event answers with it — the network
failure does reach the caller instead of a synthetic fallback response. -/
theorem swr_no_cache_failure_no_response :
    (staleWhileRevalidate ⟨[], []⟩ ⟨"https://h", "/page.html", "", "no-cors", "", none⟩ none).1 =
      none ∧
    handleFetch "https://h" ⟨[], []⟩ ⟨"https://h", "/page.html", "", "no-cors", "", none⟩
        true none = (some none, ⟨[], []⟩, true) := by
  exact ⟨by decide, by decide⟩

/-- C8 (amended): the network-first and cache-first executors always
resolve with a response; the stale-while-revalidate executor resolves with
a response whenever the runtime cache holds an entry or the network
succeeds — on network failure its fetch promise resolves to the stale
cached value — but with no cached entry and a failed fetch it resolves
with no response. -/
theorem strategy_executors_fallback_amended :
    (∀ (st : SWState) (req : Request) (net : Option Response),
        (networkFirst st req net).1.isSome = true) ∧
    (∀ (st : SWState) (req : Request) (net : Option Response),
        (cacheFirst st req net).1.isSome = true) ∧
    (∀ (st : SWState) (req : Request) (c : Response),
        cacheLookup st.runtimeStore req.url = some c →
        staleWhileRevalidate st req none = (some c, st)) ∧
    (∀ (st : SWState) (req : Request) (net : Option Response),
        (cacheLookup st.runtimeStore req.url).isSome = true ∨ net.isSome = true →
        (staleWhileRevalidate st req net).1.isSome = true) := by
  refine ⟨?_, ?_, ?_, ?_⟩
  · intro st req net
    unfold networkFirst
    cases net with
    | some netRes => by_cases h : netRes.ok <;> simp [h]
    | none => cases h : cachesMatch st req.url <;> simp [h]
  · intro st req net
    unfold cacheFirst
    cases hm : cachesMatch st req.url with
    | some c => simp
    | none =>
      cases net with
      | some netRes => by_cases h : netRes.ok <;> simp [h]
      | none => simp
  · intro st req c h
    simp [staleWhileRevalidate, h]
  · intro st req net h
    unfold staleWhileRevalidate
    rcases h with h | h
    · cases hc : cacheLookup st.runtimeStore req.url with
      | some c => simp [hc]
      | none =>
        rw [hc] at h
        simp at h
    · cases net with
      | some res => cases hc : cacheLookup st.runtimeStore req.url <;> simp [hc]
      | none => simp at h

/-- C8, witness: a stale runtime entry is served when the network fails,
and network-first still yields a response with empty caches and a failed
fetch. -/
theorem strategy_executors_fallback_amended_witness :
    staleWhileRevalidate ⟨[], [("https://h/page.html", ⟨200, "OK", some "text/html", "hi"⟩)]⟩
        ⟨"https://h", "/page.html", "", "no-cors", "", none⟩ none =
      (some ⟨200, "OK", some "text/html", "hi"⟩,
       ⟨[], [("https://h/page.html", ⟨200, "OK", some "text/html", "hi"⟩)]⟩) ∧
    (networkFirst ⟨[], []⟩ ⟨"https://h", "/d.json", "", "no-cors", "", none⟩ none).1.isSome =
      true :=
  ⟨strategy_executors_fallback_amended.2.2.1 _ _ _ (by decide),
   strategy_executors_fallback_amended.1 _ _ none⟩

/-- C9: a cache-first request whose key has a cached entry is answered
with that entry at once: state unchanged and no network fetch issued. -/
theorem cacheFirst_hit_no_network (st : SWState) (req : Request)
    (net : Option Response) (c : Response) (h : cachesMatch st req.url = some c) :
    cacheFirst st req net = (some c, st, false) := by
  simp [cacheFirst, h]

/-- C9, witness: a cached `/app.css` is served without network contact. -/
theorem cacheFirst_hit_no_network_witness :
    cacheFirst ⟨[("https://h/app.css", ⟨200, "OK", some "text/css", "body"⟩)], []⟩
        ⟨"https://h", "/app.css", "", "no-cors", "style", none⟩ none =
      (some ⟨200, "OK", some "text/css", "body"⟩,
       ⟨[("https://h/app.css", ⟨200, "OK", some "text/css", "body"⟩)], []⟩, false) :=
  cacheFirst_hit_no_network _ _ none _ (by decide)

/-- C10, counterexample: a same-origin no-cors fetch with Sec-Fetch-Dest
`empty` (and no `print` in the URL) is not bypassed — the bypass condition
requires mode `cors` — and on a successful fetch its response is written
into the runtime store. -/
theorem no_cors_empty_not_bypassed :
    classify "https://h" ⟨"https://h", "/api/data", "", "no-cors", "", some "empty"⟩ ≠
      Strategy.bypass ∧
    (handleFetch "https://h" ⟨[], []⟩
        ⟨"https://h", "/api/data", "", "no-cors", "", some "empty"⟩
        true (some ⟨200, "OK", some "text/html", "x"⟩)).2.1 ≠ (⟨[], []⟩ : SWState) := by
  exact ⟨by decide, by decide⟩

/-- C10 (amended): for every same-origin request whose URL path or query
contains `print`, or which is a cors-mode fetch whose Sec-Fetch-Dest
header is `empty`, the worker selects the bypass strategy: the request
goes straight to the network and no store is written. -/
theorem bypass_print_or_cors_empty (o : String) (st : SWState) (req : Request)
    (onLine : Bool) (net : Option Response)
    (h0 : req.origin = o)
    (h1 : strIncludes req.pathname "print" = true ∨ strIncludes req.search "print" = true ∨
        (req.secFetchDest = some "empty" ∧ req.mode = "cors")) :
    classify o req = Strategy.bypass ∧
    handleFetch o st req onLine net = (some net, st, true) := by
  have hb : (strIncludes req.pathname "print" || strIncludes req.search "print" ||
      (req.secFetchDest == some "empty" && req.mode == "cors")) = true := by
    rcases h1 with h | h | h
    · simp [h]
    · simp [h]
    · simp [h.1, h.2]
  have hc : classify o req = Strategy.bypass := by
    unfold classify
    simp [h0, hb]
  exact ⟨hc, by simp [handleFetch, hc]⟩

/-- C10, witness: a cors-mode empty-destination fetch is bypassed and the
state is untouched. -/
theorem bypass_print_or_cors_empty_witness :
    handleFetch "https://h" ⟨[], []⟩ ⟨"https://h", "/api/data", "", "cors", "", some "empty"⟩
        true none = (some none, ⟨[], []⟩, true) :=
  (bypass_print_or_cors_empty "https://h" ⟨[], []⟩ _ true none rfl
    (Or.inr (Or.inr ⟨rfl, rfl⟩))).2

end ServiceWorker
